import Mathlib

/-
Verification of the password generator (src/password_generator.py).
The three core functions of class PasswordGenerator are shallowly
embedded: randomness (secrets.choice, secrets.randbelow) is modelled by
explicit draw parameters, and the dict lookup of strength levels by an
association-list lookup returning Option (none = KeyError).
Python's str.islower/isupper/isdigit are modelled on their ASCII
fragment, which is what all character sets and test strings here use.
-/

set_option maxHeartbeats 1000000

/-- ASCII fragment of Python's str.islower on a single character. -/
def islower (c : Char) : Bool := 'a' ≤ c && c ≤ 'z'

/-- ASCII fragment of Python's str.isupper on a single character. -/
def isupper (c : Char) : Bool := 'A' ≤ c && c ≤ 'Z'

/-- ASCII fragment of Python's str.isdigit on a single character. -/
def isdigit (c : Char) : Bool := '0' ≤ c && c ≤ '9'

/-- The instance attributes set in PasswordGenerator.__init__. -/
structure PasswordGenerator where
  lowercase : String
  uppercase : String
  digits : String
  symbols : String
deriving DecidableEq

/-- The state built by PasswordGenerator.__init__: string.ascii_lowercase,
string.ascii_uppercase, string.digits, and the literal symbol string
(its two brace characters written with hex escapes). -/
def PasswordGenerator.init : PasswordGenerator :=
  { lowercase := "abcdefghijklmnopqrstuvwxyz"
  , uppercase := "ABCDEFGHIJKLMNOPQRSTUVWXYZ"
  , digits := "0123456789"
  , symbols := "!@#$%^&*()_+-=[]\x7b\x7d|;:,.<>?" }

/-- The literal ambiguous-character string of generate_password. -/
def ambiguous : String := "0Ol1"

/-- Pool assembly inside generate_password: start from lowercase, append
uppercase, digits, symbols in that order when enabled, then filter out
the ambiguous characters when requested. -/
def generate_pool (g : PasswordGenerator)
    (use_uppercase use_digits use_symbols exclude_ambiguous : Bool) : List Char :=
  let characters := g.lowercase.data
  let characters := if use_uppercase then characters ++ g.uppercase.data else characters
  let characters := if use_digits then characters ++ g.digits.data else characters
  let characters := if use_symbols then characters ++ g.symbols.data else characters
  if exclude_ambiguous then
    characters.filter (fun c => !(ambiguous.data.contains c))
  else characters

/-- generate_password with the per-position random draw of secrets.choice
modelled by the function choice, applied to the assembled pool once for
each of the len output positions. -/
def generate_password (g : PasswordGenerator) (len : Nat)
    (use_uppercase use_digits use_symbols exclude_ambiguous : Bool)
    (choice : Nat → List Char → Char) : String :=
  String.mk ((List.range len).map
    (fun i => choice i (generate_pool g use_uppercase use_digits use_symbols exclude_ambiguous)))

/-- The fixed 24-word list of generate_memorable_password. -/
def words : List String :=
  ["apple", "banana", "cherry", "dragon", "eagle", "forest", "guitar", "house",
   "island", "jungle", "kitchen", "lion", "mountain", "ocean", "piano", "queen",
   "river", "sunset", "tiger", "universe", "village", "window", "yellow", "zebra"]

/-- Python str.capitalize: first character uppercased, the rest lowercased. -/
def capitalize (s : String) : String :=
  match s.data with
  | [] => ""
  | c :: rest => String.mk (c.toUpper :: rest.map Char.toLower)

/-- generate_memorable_password with the word draws of secrets.choice
modelled by choice and secrets.randbelow(100) by the parameter suffix.
num_words is an Int: Python range(n) iterates zero times for n ≤ 0,
matched here by Int.toNat. -/
def generate_memorable_password (num_words : Int)
    (choice : Nat → List String → String) (suffix : Nat) : String :=
  let selected_words := (List.range num_words.toNat).map (fun i => choice i words)
  let password_words := selected_words.map capitalize
  String.join password_words ++ toString suffix

/-- The six sequential checks of check_password_strength, accumulating
the score and the feedback list exactly in source order; the sixth
check adds no feedback. -/
def strength_checks (g : PasswordGenerator) (password : String) : Nat × List String :=
  let score : Nat := 0
  let feedback : List String := []
  let r :=
    if password.length ≥ 8 then (score + 1, feedback)
    else (score, feedback ++ ["Пароль должен содержать минимум 8 символов"])
  let r :=
    if password.data.any islower then (r.1 + 1, r.2)
    else (r.1, r.2 ++ ["Добавьте строчные буквы"])
  let r :=
    if password.data.any isupper then (r.1 + 1, r.2)
    else (r.1, r.2 ++ ["Добавьте заглавные буквы"])
  let r :=
    if password.data.any isdigit then (r.1 + 1, r.2)
    else (r.1, r.2 ++ ["Добавьте цифры"])
  let r :=
    if password.data.any (fun c => g.symbols.data.contains c) then (r.1 + 1, r.2)
    else (r.1, r.2 ++ ["Добавьте специальные символы"])
  let r := if password.length ≥ 12 then (r.1 + 1, r.2) else r
  r

/-- The strength_levels dict of check_password_strength as an
association list keyed by score. -/
def strength_levels : List (Nat × String) :=
  [(0, "Очень слабый"), (1, "Слабый"), (2, "Средний"), (3, "Хороший"),
   (4, "Сильный"), (5, "Очень сильный"), (6, "Отличный")]

/-- The result dict of check_password_strength. -/
structure StrengthResult where
  score : Nat
  strength : String
  feedback : List String
deriving DecidableEq

/-- check_password_strength: run the six checks, then look the score up
in strength_levels; none models the KeyError a missing key would raise. -/
def check_password_strength (g : PasswordGenerator) (password : String) :
    Option StrengthResult :=
  let r := strength_checks g password
  match strength_levels.lookup r.1 with
  | some label => some { score := r.1, strength := label, feedback := r.2 }
  | none => none

/-- The method call as a state transformer on the PasswordGenerator
instance: the Python body assigns no attribute of self, so the
post-state is the unchanged instance. -/
def check_password_strength_method (g : PasswordGenerator) (password : String) :
    Option StrengthResult × PasswordGenerator :=
  (check_password_strength g password, g)

/-- The 25 lowercase letters that survive the ambiguous-character filter. -/
def non_ambiguous_lowercase : List Char :=
  PasswordGenerator.init.lowercase.data.filter (fun c => !(ambiguous.data.contains c))

/-- A concrete draw function for character pools, used to instantiate
the random draws at a witness input. -/
def headChoice (_i : Nat) (l : List Char) : Char := l.headD 'a'

/-- A concrete draw function for word lists, used to instantiate the
random draws at a witness input. -/
def wordChoice (_i : Nat) (l : List String) : String := l.headD ""

theorem headChoice_mem : ∀ i l, l ≠ [] → headChoice i l ∈ l := by
  intro _i l h
  cases l with
  | nil => exact absurd rfl h
  | cons a t => simp [headChoice]

theorem wordChoice_mem : ∀ i l, l ≠ [] → wordChoice i l ∈ l := by
  intro _i l h
  cases l with
  | nil => exact absurd rfl h
  | cons a t => simp [wordChoice]

theorem pool_ne_nil : ∀ uu ud us ea : Bool,
    generate_pool PasswordGenerator.init uu ud us ea ≠ [] := by
  intro uu ud us ea
  cases uu <;> cases ud <;> cases us <;> cases ea <;> decide

theorem pool_ambiguous_free : ∀ uu ud us : Bool,
    ∀ c ∈ generate_pool PasswordGenerator.init uu ud us true, c ∉ ambiguous.data := by
  intro uu ud us
  cases uu <;> cases ud <;> cases us <;> decide

theorem pool_lowercase_only : ∀ ea : Bool,
    ∀ c ∈ generate_pool PasswordGenerator.init false false false ea,
      c ∈ PasswordGenerator.init.lowercase.data := by
  intro ea; cases ea <;> decide

theorem cap_words : ∀ w ∈ words,
    ((capitalize w).data.head?.all Char.isUpper) ∧
    ((capitalize w).data.tail.all Char.isLower) := by decide

theorem suffix_digits : ∀ n < 100, 1 ≤ (toString n).length ∧ (toString n).length ≤ 2 ∧
    (toString n).data.all Char.isDigit := by decide

theorem strength_checks_eq (g : PasswordGenerator) (p : String) :
    strength_checks g p =
      ((if p.length ≥ 8 then 1 else 0) + (if p.data.any islower then 1 else 0)
        + (if p.data.any isupper then 1 else 0) + (if p.data.any isdigit then 1 else 0)
        + (if p.data.any (fun c => g.symbols.data.contains c) then 1 else 0)
        + (if p.length ≥ 12 then 1 else 0),
       (if p.length ≥ 8 then [] else ["Пароль должен содержать минимум 8 символов"])
        ++ (if p.data.any islower then [] else ["Добавьте строчные буквы"])
        ++ (if p.data.any isupper then [] else ["Добавьте заглавные буквы"])
        ++ (if p.data.any isdigit then [] else ["Добавьте цифры"])
        ++ (if p.data.any (fun c => g.symbols.data.contains c) then []
            else ["Добавьте специальные символы"])) := by
  simp only [strength_checks]
  split_ifs <;> simp

theorem check_score_eq {g : PasswordGenerator} {p : String} {r : StrengthResult}
    (h : check_password_strength g p = some r) :
    r.score = (strength_checks g p).1 := by
  simp only [check_password_strength] at h
  split at h
  · injection h with h; subst h; rfl
  · exact Option.noConfusion h

theorem ite_one_mono {c d : Prop} [Decidable c] [Decidable d] (h : c → d) :
    (if c then (1:Nat) else 0) ≤ (if d then 1 else 0) := by
  split_ifs <;> simp_all

theorem strength_score_mono (g : PasswordGenerator) (p s : String) :
    (strength_checks g p).1 ≤ (strength_checks g (p ++ s)).1 := by
  have hdata : (p ++ s).data = p.data ++ s.data := by
    rcases p with ⟨l⟩; rcases s with ⟨m⟩; rfl
  have hlen : p.length ≤ (p ++ s).length := by
    have h2 : (p ++ s).length = p.length + s.length := by
      show (p ++ s).data.length = p.data.length + s.data.length
      rw [hdata, List.length_append]
    omega
  rw [strength_checks_eq, strength_checks_eq]
  dsimp only
  have hany : ∀ f : Char → Bool, p.data.any f = true → (p ++ s).data.any f = true := by
    intro f h; rw [hdata]; simp [List.any_append, h]
  refine Nat.add_le_add (Nat.add_le_add (Nat.add_le_add (Nat.add_le_add
    (Nat.add_le_add ?_ ?_) ?_) ?_) ?_) ?_
  · exact ite_one_mono (fun h => le_trans h hlen)
  · exact ite_one_mono (hany _)
  · exact ite_one_mono (hany _)
  · exact ite_one_mono (hany _)
  · exact ite_one_mono (hany _)
  · exact ite_one_mono (fun h => le_trans h hlen)

/-- C1: for every length ≥ 1, every flag combination, and every valid
draw function, generate_password returns a string of exactly that many
characters, each from the assembled pool; with exclude_ambiguous the
output avoids the characters 0, O, l, 1; with the three class toggles
off the output is lowercase only. -/
theorem generate_password_spec (n : Nat) (uu ud us ea : Bool)
    (choice : Nat → List Char → Char)
    (hn : 1 ≤ n)
    (hchoice : ∀ i l, l ≠ [] → choice i l ∈ l) :
    (generate_password PasswordGenerator.init n uu ud us ea choice).length = n ∧
    (∀ c ∈ (generate_password PasswordGenerator.init n uu ud us ea choice).data,
       c ∈ generate_pool PasswordGenerator.init uu ud us ea) ∧
    (ea = true →
      ∀ c ∈ (generate_password PasswordGenerator.init n uu ud us ea choice).data,
        c ∉ ambiguous.data) ∧
    (uu = false → ud = false → us = false →
      ∀ c ∈ (generate_password PasswordGenerator.init n uu ud us ea choice).data,
        c ∈ PasswordGenerator.init.lowercase.data) := by
  have hmem : ∀ c ∈ (generate_password PasswordGenerator.init n uu ud us ea choice).data,
      c ∈ generate_pool PasswordGenerator.init uu ud us ea := by
    intro c hc
    obtain ⟨i, hi, rfl⟩ := List.mem_map.mp hc
    exact hchoice i _ (pool_ne_nil uu ud us ea)
  refine ⟨?_, hmem, ?_, ?_⟩
  · show ((List.range n).map _).length = n
    rw [List.length_map, List.length_range]
  · rintro rfl c hc
    exact pool_ambiguous_free uu ud us c (hmem c hc)
  · rintro rfl rfl rfl c hc
    exact pool_lowercase_only ea c (hmem c hc)

/-- C1 witness: the specification instantiated at length 3 with all
flags enabled and a concrete draw function. -/
theorem generate_password_spec_witness :
    (generate_password PasswordGenerator.init 3 true true true true headChoice).length = 3 ∧
    (∀ c ∈ (generate_password PasswordGenerator.init 3 true true true true headChoice).data,
       c ∈ generate_pool PasswordGenerator.init true true true true) ∧
    (true = true →
      ∀ c ∈ (generate_password PasswordGenerator.init 3 true true true true headChoice).data,
        c ∉ ambiguous.data) ∧
    (true = false → true = false → true = false →
      ∀ c ∈ (generate_password PasswordGenerator.init 3 true true true true headChoice).data,
        c ∈ PasswordGenerator.init.lowercase.data) :=
  generate_password_spec 3 true true true true headChoice (by decide) headChoice_mem

/-- C2 (amended): the 10-character password scores 5 with empty
feedback, and the 12-lowercase-letter password scores 3 (checks 1, 2
and 6 pass) with feedback for missing uppercase, digits and symbols. -/
theorem check_strength_examples :
    check_password_strength PasswordGenerator.init "Abcdefgh1!" =
      some ⟨5, "Очень сильный", []⟩ ∧
    check_password_strength PasswordGenerator.init "abcdefghijkl" =
      some ⟨3, "Хороший",
        ["Добавьте заглавные буквы", "Добавьте цифры", "Добавьте специальные символы"]⟩ := by
  decide

/-- C2 counterexample: the 12-lowercase-letter password scores 3, not 2
as the claim states. -/
theorem twelve_lowercase_not_score_two :
    (check_password_strength PasswordGenerator.init "abcdefghijkl").map StrengthResult.score =
      some 3 ∧
    (check_password_strength PasswordGenerator.init "abcdefghijkl").map StrengthResult.score ≠
      some 2 := by decide

/-- C3: the empty string scores 0 with exactly the five feedback-bearing
failure messages, the sixth check failing silently; no error occurs. -/
theorem check_strength_empty :
    check_password_strength PasswordGenerator.init "" =
      some ⟨0, "Очень слабый",
        ["Пароль должен содержать минимум 8 символов", "Добавьте строчные буквы",
         "Добавьте заглавные буквы", "Добавьте цифры", "Добавьте специальные символы"]⟩ := by
  decide

/-- C4: for every positive word count, valid draw function and suffix
below 100, generate_memorable_password is the concatenation of that many
capitalized words from the fixed list followed by the 1-to-2-digit
decimal rendering of the suffix. -/
theorem generate_memorable_spec (num_words : Int)
    (choice : Nat → List String → String) (n : Nat)
    (hw : 1 ≤ num_words)
    (hc : ∀ i l, l ≠ [] → choice i l ∈ l)
    (hn : n < 100) :
    ∃ ws : List String,
      (ws.length : Int) = num_words ∧
      (∀ w ∈ ws, w ∈ words) ∧
      generate_memorable_password num_words choice n =
        String.join (ws.map capitalize) ++ toString n ∧
      (∀ w ∈ ws, ((capitalize w).data.head?.all Char.isUpper) ∧
                 ((capitalize w).data.tail.all Char.isLower)) ∧
      1 ≤ (toString n).length ∧ (toString n).length ≤ 2 ∧
      (toString n).data.all Char.isDigit := by
  refine ⟨(List.range num_words.toNat).map (fun i => choice i words),
    ?_, ?_, rfl, ?_, suffix_digits n hn⟩
  · simp only [List.length_map, List.length_range]; omega
  · intro w hw'
    obtain ⟨i, hi, rfl⟩ := List.mem_map.mp hw'
    exact hc i words (by decide)
  · intro w hw'
    obtain ⟨i, hi, rfl⟩ := List.mem_map.mp hw'
    exact cap_words _ (hc i words (by decide))

/-- C4 witness: the specification instantiated at two words, a concrete
draw function and suffix 7. -/
theorem generate_memorable_spec_witness :
    ∃ ws : List String,
      (ws.length : Int) = 2 ∧
      (∀ w ∈ ws, w ∈ words) ∧
      generate_memorable_password 2 wordChoice 7 =
        String.join (ws.map capitalize) ++ toString 7 ∧
      (∀ w ∈ ws, ((capitalize w).data.head?.all Char.isUpper) ∧
                 ((capitalize w).data.tail.all Char.isLower)) ∧
      1 ≤ (toString 7).length ∧ (toString 7).length ≤ 2 ∧
      (toString 7).data.all Char.isDigit :=
  generate_memorable_spec 2 wordChoice 7 (by decide) wordChoice_mem (by decide)

/-- C5 counterexample: with zero or negative num_words the function does
not fail; it returns the plain suffix string. -/
theorem memorable_nonpos_returns_suffix_string :
    generate_memorable_password 0 wordChoice 42 = "42" ∧
    generate_memorable_password (-3) wordChoice 42 = "42" := by decide

/-- C5 (amended): for num_words ≤ 0 generate_memorable_password raises
no error and returns exactly the decimal suffix with no words. -/
theorem generate_memorable_nonpos (num_words : Int)
    (choice : Nat → List String → String) (n : Nat) (h : num_words ≤ 0) :
    generate_memorable_password num_words choice n = toString n := by
  unfold generate_memorable_password
  rw [Int.toNat_of_nonpos h]
  rfl

/-- C5 witness: the amended claim instantiated at num_words = -5. -/
theorem generate_memorable_nonpos_witness :
    generate_memorable_password (-5) wordChoice 7 = toString 7 :=
  generate_memorable_nonpos (-5) wordChoice 7 (by decide)

/-- C6: appending characters to a password never decreases the score
returned by check_password_strength. -/
theorem check_strength_monotone (p s : String) (r r' : StrengthResult)
    (h : check_password_strength PasswordGenerator.init p = some r)
    (h' : check_password_strength PasswordGenerator.init (p ++ s) = some r') :
    r.score ≤ r'.score := by
  rw [check_score_eq h, check_score_eq h']
  exact strength_score_mono PasswordGenerator.init p s

/-- C6 witness: appending an uppercase letter to a lowercase-only
password raises the score from 1 to 2. -/
theorem check_strength_monotone_witness :
    (⟨1, "Слабый",
      ["Пароль должен содержать минимум 8 символов", "Добавьте заглавные буквы",
       "Добавьте цифры", "Добавьте специальные символы"]⟩ : StrengthResult).score ≤
    (⟨2, "Средний",
      ["Пароль должен содержать минимум 8 символов",
       "Добавьте цифры", "Добавьте специальные символы"]⟩ : StrengthResult).score :=
  check_strength_monotone "a" "A" _ _ (by decide) (by decide)

/-- C7: for every combination of the four flags the assembled pool keeps
all 25 non-ambiguous lowercase letters, has at least 25 characters, and
is never empty, so the empty-pool failure case is unreachable and the
claimed guard holds vacuously. -/
theorem generate_pool_never_empty : ∀ uu ud us ea : Bool,
    (∀ c ∈ non_ambiguous_lowercase, c ∈ generate_pool PasswordGenerator.init uu ud us ea) ∧
    25 ≤ (generate_pool PasswordGenerator.init uu ud us ea).length ∧
    generate_pool PasswordGenerator.init uu ud us ea ≠ [] := by
  intro uu ud us ea
  cases uu <;> cases ud <;> cases us <;> cases ea <;> decide

/-- C8: the scoring method is pure and deterministic: two successive
calls on the same input return the same result and leave the
PasswordGenerator instance unchanged. -/
theorem check_strength_pure (g : PasswordGenerator) (p : String) :
    (check_password_strength_method g p).1 =
      (check_password_strength_method (check_password_strength_method g p).2 p).1 ∧
    (check_password_strength_method g p).2 = g :=
  ⟨rfl, rfl⟩

/-- C9: on every input check_password_strength succeeds with a score of
at most 6 whose strength label is exactly the strength_levels entry for
that score. -/
theorem check_strength_total (p : String) :
    ∃ r : StrengthResult,
      check_password_strength PasswordGenerator.init p = some r ∧
      r.score ≤ 6 ∧
      strength_levels.lookup r.score = some r.strength ∧
      r.score = (strength_checks PasswordGenerator.init p).1 := by
  have hb : (strength_checks PasswordGenerator.init p).1 ≤ 6 := by
    rw [strength_checks_eq]; dsimp only; split_ifs <;> norm_num
  set n := (strength_checks PasswordGenerator.init p).1 with hndef
  obtain ⟨label, hl⟩ : ∃ l, strength_levels.lookup n = some l := by
    interval_cases n <;> exact ⟨_, rfl⟩
  refine ⟨⟨n, label, (strength_checks PasswordGenerator.init p).2⟩, ?_, hb, hl, rfl⟩
  simp only [check_password_strength]
  rw [← hndef, hl]

/-- C10: on every input, score plus number of feedback messages equals 5
plus 1 exactly when the length reaches 12: each of the first five checks
yields a point or a message, the sixth a point or nothing. -/
theorem score_feedback_invariant (p : String) :
    (strength_checks PasswordGenerator.init p).1 +
      (strength_checks PasswordGenerator.init p).2.length =
      5 + (if p.length ≥ 12 then 1 else 0) := by
  rw [strength_checks_eq]; dsimp only
  split_ifs <;> simp
